import Mathlib

/-!
Shallow embedding of the whisper-workflow web GUI orchestration core
(src/whisper_gui_web.py) and proofs about its specified properties.

Modelling conventions:
- Python str values are Lean String; Python int is ℤ or ℕ (every clamped
  quantity in the source has a nonnegative lower bound, so ℕ is exact there);
- Python float arithmetic is modelled over ℚ with exact rational constants.
  IEEE-754 double rounding is NOT modelled; definitions touched by this are
  marked with a comment.  Python round() is modelled as round-half-to-even
  (pyRound below), matching its semantics on exactly representable values.
- Filesystem, subprocess and clock effects are supplied by explicit
  environment records (oracles); signals sent on cancellation are recorded
  as an explicit effect trace.
- str.strip() is modelled by pyStrip (ASCII whitespace; the rarely used
  \x0b/\x0c and non-ASCII whitespace forms are not modelled).
-/

namespace WhisperGuiWeb

/-! ### Small Python-flavoured helpers -/

/-- Digits of an ASCII decimal numeral to a natural number. -/
def digitsToNat (ds : List Char) : ℕ :=
  ds.foldl (fun a c => a * 10 + (c.toNat - 48)) 0

/-- Model of Python int(text) for an optionally signed decimal numeral
(exotic forms such as underscores in literals are not modelled). -/
def parsePyInt (s : String) : Option ℤ :=
  match s.toList with
  | '+' :: ds => if ds ≠ [] ∧ ds.all Char.isDigit then some (digitsToNat ds : ℤ) else none
  | '-' :: ds => if ds ≠ [] ∧ ds.all Char.isDigit then some (-(digitsToNat ds : ℤ)) else none
  | ds => if ds ≠ [] ∧ ds.all Char.isDigit then some (digitsToNat ds : ℤ) else none

/-- An exact decimal fraction num / 10 ^ pow10, the value of a parsed
decimal literal.  Kept unnormalized so that the kernel can evaluate the
arithmetic (ℚ normalization goes through gcd, which the kernel cannot
unfold); its rational value is num / 10 ^ pow10. -/
structure Dec10 where
  num : ℤ
  pow10 : ℕ
deriving DecidableEq, Repr

namespace Dec10

/-- The rational value of the decimal fraction. -/
def toRat (d : Dec10) : ℚ := (d.num : ℚ) / (10 : ℚ) ^ d.pow10

/-- Negation. -/
def neg (d : Dec10) : Dec10 := ⟨-d.num, d.pow10⟩

/-- Is the value negative? -/
def isNeg (d : Dec10) : Bool := d.num < 0

/-- Multiplication by a natural constant. -/
def scale (k : ℕ) (d : Dec10) : Dec10 := ⟨d.num * k, d.pow10⟩

/-- Exact addition over the common power-of-ten denominator. -/
def add (a b : Dec10) : Dec10 :=
  let p := max a.pow10 b.pow10
  ⟨a.num * 10 ^ (p - a.pow10) + b.num * 10 ^ (p - b.pow10), p⟩

/-- Floor of a nonnegative decimal fraction, as used for int() of a
nonnegative Python value (truncation and floor agree there). -/
def floorNonneg (d : Dec10) : ℕ := d.num.toNat / 10 ^ d.pow10

end Dec10

/-- Core of Python float(text) for an unsigned decimal numeral with an
optional fractional part ("12", "12.", "12.5", ".5").  Exponent, inf/nan
and whitespace forms are not modelled. -/
def parseDecimalCore (cs : List Char) : Option Dec10 :=
  let ip := cs.takeWhile Char.isDigit
  match cs.dropWhile Char.isDigit with
  | [] => if ip = [] then none else some ⟨(digitsToNat ip : ℤ), 0⟩
  | '.' :: frac =>
      if frac.all Char.isDigit ∧ (ip ≠ [] ∨ frac ≠ []) then
        some ⟨(digitsToNat (ip ++ frac) : ℤ), frac.length⟩
      else none
  | _ => none

/-- Model of Python float(text) with an optional sign, as an exact
decimal fraction. -/
def parsePyFloat (s : String) : Option Dec10 :=
  match s.toList with
  | '+' :: rest => parseDecimalCore rest
  | '-' :: rest => (parseDecimalCore rest).map Dec10.neg
  | cs => parseDecimalCore cs

/-- Python round(): round half to even, then to integer. -/
def pyRound (q : ℚ) : ℤ :=
  let f := ⌊q⌋
  if q - f < 1/2 then f
  else if 1/2 < q - f then f + 1
  else if Even f then f else f + 1

/-- Python x or y on strings (empty string is falsy). -/
def pyOr (a b : String) : String := if a = "" then b else a

/-- Python x or y on nonnegative ints (0 is falsy). -/
def pyOrNat (a b : ℕ) : ℕ := if a = 0 then b else a

/-- str.strip() (standard ASCII whitespace; the rare \x0b/\x0c and
non-ASCII whitespace forms are not modelled). -/
def pyStrip (s : String) : String :=
  String.mk (((s.toList.dropWhile Char.isWhitespace).reverse.dropWhile
    Char.isWhitespace).reverse)

/-- Model of parse_int_clamped for an Optional[str] value: int(str(v).strip())
with the default on failure, clamped to [mn, mx].  (str(None) never parses,
so a missing value yields the default, as in the source.) -/
def parseIntClamped (value : Option String) (dflt mn mx : ℤ) : ℤ :=
  let n := match value with
    | none => dflt
    | some s => (parsePyInt (pyStrip s)).getD dflt
  max mn (min mx n)

/-- Clamp of a machine int that is already an int (parse_int_clamped applied
to an int value round-trips through str and is a pure clamp). -/
def clampNat (n mn mx : ℕ) : ℕ := max mn (min mx n)

/-- Python str.lower() (ASCII; log text in the signature table is ASCII). -/
def pyLower (t : String) : String := String.mk (t.toList.map Char.toLower)

/-- Does hay start with needle? -/
def listStartsWith : List Char → List Char → Bool
  | [], _ => true
  | _ :: _, [] => false
  | n :: ns, h :: hs => n == h && listStartsWith ns hs

/-- Does needle occur as a contiguous run inside hay? -/
def listHasRun (needle : List Char) : List Char → Bool
  | [] => listStartsWith needle []
  | c :: rest => listStartsWith needle (c :: rest) || listHasRun needle rest

/-- Python "needle in hay" substring test. -/
def strContains (hay needle : String) : Bool :=
  listHasRun needle.toList hay.toList

/-- Split a character list at every character satisfying p, keeping empty
pieces (the semantics of str.split(sep) for a single-character sep). -/
def splitOnPred (p : Char → Bool) : List Char → List (List Char)
  | [] => [[]]
  | c :: rest =>
    let r := splitOnPred p rest
    if p c then [] :: r
    else match r with
      | [] => [[c]]
      | h :: t => (c :: h) :: t

/-- str.split(sep) for a single-character separator. -/
def splitOnChar (sep : Char) (cs : List Char) : List (List Char) :=
  splitOnPred (fun c => c == sep) cs

/-- Join pieces with a single-character separator. -/
def joinWithChar (sep : Char) : List (List Char) → List Char
  | [] => []
  | [l] => l
  | l :: ls => l ++ sep :: joinWithChar sep ls

/-- Keep only the first n characters (str slicing [:n]). -/
def pyTake (s : String) (n : ℕ) : String := String.mk (s.toList.take n)

/-- Drop the last n characters (str slicing [:-n]). -/
def strDropRight (s : String) (n : ℕ) : String :=
  String.mk (s.toList.take (s.toList.length - n))

/-- str.endswith(suffix). -/
def strEndsWith (s suffix : String) : Bool :=
  listStartsWith suffix.toList.reverse s.toList.reverse

/-- posix os.path.isabs: the path starts with a slash. -/
def pyIsAbs (s : String) : Bool :=
  match s.toList with
  | '/' :: _ => true
  | _ => false

/-- posix os.path.basename: everything after the last slash. -/
def pyBasename (p : String) : String :=
  match (splitOnChar '/' p.toList).getLast? with
  | some x => String.mk x
  | none => ""

/-- posix os.path.join for the two-argument joins used in the source. -/
def pathJoin (a b : String) : String :=
  if pyIsAbs b then b
  else if a = "" then b
  else if strEndsWith a "/" then a ++ b
  else a ++ "/" ++ b

/-- Drop lit from the front of cs, or fail. -/
def dropLiteral : List Char → List Char → Option (List Char)
  | [], cs => some cs
  | _, [] => none
  | l :: ls, c :: cs => if c = l then dropLiteral ls cs else none

/-! ### Decision utilities (pure functions of the source) -/

def PRESETS : List String := ["x1", "x4", "x8", "x16"]
def PRIORITIES : List String := ["accuracy", "balanced", "speed"]
def MODE_STRATEGIES : List String := ["auto", "custom"]
def CUSTOM_MODES : List String := ["single-pass", "segmented"]
def RECOVERY_MODES : List String := ["failed", "time_range"]

structure AutoModeDecision where
  mode : String
  jobs : ℕ
  segmentTime : ℕ
  reason : String
deriving DecidableEq, Repr

/-- The post-bucket jobs/segment adjustments and result record of
recommend_auto_mode (source lines 181-201). -/
def autoSegmented (duration : ℚ) (prio modelPreset : String) (jobs0 segT0 : ℕ) : AutoModeDecision :=
  let jobs1 := if prio = "accuracy" then max 2 (jobs0 - 1)
    else if prio = "speed" then min 8 (jobs0 + 1) else jobs0
  let segT1 := if prio = "accuracy" then min 300 (segT0 + 30)
    else if prio = "speed" then max 60 (segT0 - 30) else segT0
  let jobs := if modelPreset = "x1" then max 2 (jobs1 - 1)
    else if modelPreset = "x16" then min 8 (jobs1 + 1) else jobs1
  let segT := if modelPreset = "x1" then min 300 (segT1 + 30)
    else if modelPreset = "x16" then max 60 (segT1 - 30) else segT1
  let reasonSuffix := if prio = "accuracy" then "精度寄り"
    else if prio = "balanced" then "バランス" else "速度寄り"
  { mode := "segmented", jobs := jobs, segmentTime := segT,
    reason := toString ⌊duration / 60⌋ ++ "分音声のため分割並列 (" ++ reasonSuffix ++
      ", jobs=" ++ toString jobs ++ ", " ++ toString segT ++ "秒分割)" }

/-- The cpu and half_cpu locals of recommend_auto_mode: cpu_count or 4
(0 models os.cpu_count() returning None), floored at 2, halved, floored
at 2 again. -/
def halfCpuOf (cpuCount : ℕ) : ℕ :=
  max 2 ((max 2 (if cpuCount = 0 then 4 else cpuCount)) / 2)

/-- recommend_auto_mode (source lines 158-201).  duration_sec is
to_float(duration_sec) or 0.0, so a missing duration reads as 0. -/
def recommendAutoMode (durationSec : Option ℚ) (preset priority : String) (cpuCount : ℕ) :
    AutoModeDecision :=
  let duration : ℚ := durationSec.getD 0
  let halfCpu : ℕ := halfCpuOf cpuCount
  let prio := if priority ∈ PRIORITIES then priority else "balanced"
  let modelPreset := if preset ∈ PRESETS then preset else "x4"
  if 120 * 60 ≤ duration then autoSegmented duration prio modelPreset (min 8 (max 4 halfCpu)) 90
  else if 60 * 60 ≤ duration then autoSegmented duration prio modelPreset (min 6 (max 4 halfCpu)) 120
  else if 30 * 60 ≤ duration then autoSegmented duration prio modelPreset (min 5 (max 3 halfCpu)) 150
  else if 15 * 60 ≤ duration then autoSegmented duration prio modelPreset (min 4 (max 2 halfCpu)) 180
  else { mode := "single-pass", jobs := 1, segmentTime := 240,
         reason := "15分未満のため単一パスが最適" }

/-- Regex fullmatch of the pure-seconds form of parse_time_to_seconds:
digits with an optional dot-digits fractional part. -/
def matchesSecondsToken (cs : List Char) : Bool :=
  let ip := cs.takeWhile Char.isDigit
  match cs.dropWhile Char.isDigit with
  | [] => decide (ip ≠ [])
  | '.' :: frac => decide (ip ≠ []) && decide (frac ≠ []) && frac.all Char.isDigit
  | _ => false

/-- parse_time_to_seconds (source lines 245-274).  All successful returns
of the source are nonnegative, so the result is ℕ.  The float arithmetic
on the parsed parts is exact decimal arithmetic here (Dec10). -/
def parseTimeToSeconds (value : String) : Option ℕ :=
  let text := pyStrip value
  if text = "" then none
  else if matchesSecondsToken text.toList then
    match parsePyFloat text with
    | some q => some (max 0 q.floorNonneg)
    | none => none
  else
    match (splitOnChar ':' text.toList).map String.mk with
    | [mmS, ssS] =>
      match parsePyFloat mmS, parsePyFloat ssS with
      | some mm, some ss =>
          if mm.isNeg ∨ ss.isNeg then none
          else some ((mm.scale 60).add ss).floorNonneg
      | _, _ => none
    | [hhS, mmS, ssS] =>
      match parsePyFloat hhS, parsePyFloat mmS, parsePyFloat ssS with
      | some hh, some mm, some ss =>
          if hh.isNeg ∨ mm.isNeg ∨ ss.isNeg then none
          else some (((hh.scale 3600).add (mm.scale 60)).add ss).floorNonneg
      | _, _, _ => none
    | _ => none

/-- re.split on runs of commas/newlines, strip, drop empties (source line
281; splitting at every single delimiter and dropping empty pieces is the
same as splitting at delimiter runs). -/
def splitRangeTokens (text : String) : List String :=
  (((splitOnPred fun c => c == ',' || c == '\n') text.toList).map
    fun cs => pyStrip (String.mk cs)).filter fun t => t ≠ ""

/-- token.split(sep, 1) for a single-character sep, when sep occurs. -/
def splitOnceOn (sep : Char) (t : String) : Option (String × String) :=
  match splitOnChar sep t.toList with
  | [] => none
  | [_] => none
  | l :: rest => some (String.mk l, String.mk (joinWithChar sep rest))

/-- Parse one token of build_segment_ids_from_ranges into a normalized
(start, end) pair of seconds: a bare timestamp is a 1-second point range,
swapped bounds are swapped back, and an empty range is widened by 1s
(source lines 287-301). -/
def rangeBoundsOfToken (token : String) : Option (ℕ × ℕ) :=
  match splitOnceOn '-' token with
  | some (l, r) =>
    match parseTimeToSeconds l, parseTimeToSeconds r with
    | some s0, some e0 =>
      let p := if e0 < s0 then (e0, s0) else (s0, e0)
      some (p.1, if p.2 = p.1 then p.1 + 1 else p.2)
    | _, _ => none
  | none =>
    match parseTimeToSeconds token with
    | some s0 => some (s0, s0 + 1)
    | none => none

/-- Segment indices covered by one normalized (start, end) range: the
ascending enumeration of range(start_idx, end_idx + 1) from source lines
303-306. -/
def rangeSegmentIdxs (startSec endSec seg : ℕ) : List ℕ :=
  List.range' (max 0 (startSec / seg))
    (max (max 0 (startSec / seg)) (max 0 ((endSec - 1) / seg)) + 1 - max 0 (startSec / seg))

/-- set.add on the insertion-ordered list model of a Python set of ints. -/
def setAdd (l : List ℕ) (n : ℕ) : List ℕ := if n ∈ l then l else l ++ [n]

/-- Ascending insertion used to model sorted(ids). -/
def insertAsc (n : ℕ) : List ℕ → List ℕ
  | [] => [n]
  | m :: ms => if n ≤ m then n :: m :: ms else m :: insertAsc n ms

/-- sorted(ids) on the list model of a set of ints. -/
def sortAsc (l : List ℕ) : List ℕ := l.foldr insertAsc []

/-- f-string {idx:03d} for a nonnegative index. -/
def pad3 (n : ℕ) : String :=
  let s := toString n
  if 3 ≤ s.length then s else String.mk (List.replicate (3 - s.length) '0') ++ s

/-- build_segment_ids_from_ranges (source lines 277-313).  The Python set
of indices is modelled as a duplicate-free list in insertion order. -/
def buildSegmentIdsFromRanges (rangesText : String) (segmentTime : ℤ) :
    List String × Option String :=
  if segmentTime ≤ 0 then ([], some "segment_time が不正です。")
  else
    let seg := segmentTime.toNat
    let tokens := splitRangeTokens rangesText
    if tokens = [] then ([], some "時刻範囲が指定されていません。")
    else
      let acc := tokens.foldl (fun (acc : Except String (List ℕ)) token =>
        match acc with
        | .error e => .error e
        | .ok ids =>
          match rangeBoundsOfToken token with
          | none => .error ("時刻範囲の形式が不正です: " ++ token)
          | some (s0, e0) => .ok ((rangeSegmentIdxs s0 e0 seg).foldl setAdd ids)) (.ok [])
      match acc with
      | .error e => ([], some e)
      | .ok ids =>
        if ids = [] then ([], some "対象セグメントを算出できませんでした。")
        else if 5000 < ids.length then
          ([], some "対象セグメント数が多すぎます。範囲を絞ってください。")
        else ((sortAsc ids).map fun i => "segment_" ++ pad3 i, none)

/-! ### Output-path sanitation (source lines 54-57 and 316-331) -/

/-- Character class [A-Za-z0-9._-] of sanitize_filename. -/
def allowedFilenameChar (c : Char) : Bool :=
  c.isAlphanum || c == '.' || c == '_' || c == '-'

/-- re.sub of one-or-more disallowed characters by a single underscore;
the Bool argument records whether the previous character was disallowed. -/
def collapseDisallowedAux : List Char → Bool → List Char
  | [], _ => []
  | c :: cs, prevBad =>
    if allowedFilenameChar c then c :: collapseDisallowedAux cs false
    else if prevBad then collapseDisallowedAux cs true
    else '_' :: collapseDisallowedAux cs true

/-- str.strip("._"): drop leading and trailing dots and underscores. -/
def stripDotUnderscore (cs : List Char) : List Char :=
  ((cs.dropWhile fun c => c == '.' || c == '_').reverse.dropWhile
    fun c => c == '.' || c == '_').reverse

/-- sanitize_filename (source lines 54-57). -/
def sanitizeFilename (name fallback : String) : String :=
  let base0 := pyBasename (pyStrip name)
  let base := if base0 = "" then fallback else base0
  let cleaned := String.mk (stripDotUnderscore (collapseDisallowedAux base.toList false))
  pyTake (if cleaned = "" then fallback else cleaned) 120

/-- resolve_output_path (source lines 323-331), with the module-level
OUTPUTS_DIR passed explicitly (it comes from the process environment). -/
def resolveOutputPath (outputsDir nameOrPath fallbackName : String) : String :=
  let raw := pyStrip nameOrPath
  if raw ≠ "" ∧ pyIsAbs raw then raw
  else
    let safe0 := sanitizeFilename (pyOr raw fallbackName) fallbackName
    let safe := if strEndsWith safe0 ".txt" then safe0 else safe0 ++ ".txt"
    pathJoin outputsDir safe

/-- default_recovered_output_name (source lines 316-320). -/
def defaultRecoveredOutputName (partialOutputPath : String) : String :=
  let base := pyOr (pyBasename partialOutputPath) "transcription_result.txt"
  if strEndsWith base ".txt" then strDropRight base 4 ++ ".recovered.txt"
  else base ++ ".recovered.txt"

/-! ### Recovery metadata sidecar (source lines 334-352) -/

/-- Overwrite-or-append assignment on a key-value list (dict update). -/
def metaSet (m : List (String × String)) (k v : String) : List (String × String) :=
  if m.any fun p => p.1 == k then m.map fun p => if p.1 == k then (k, v) else p
  else m ++ [(k, v)]

/-- dict.get on the key-value list. -/
def metaGet (m : List (String × String)) (k : String) : Option String :=
  (m.find? fun p => p.1 == k).map Prod.snd

/-- read_recovery_meta parsing, as a function of the sidecar's content;
none stands for a missing file or an OSError (both return the empty dict
in the source). -/
def readRecoveryMeta (content : Option String) : List (String × String) :=
  match content with
  | none => []
  | some text =>
    (((splitOnChar '\n' text.toList).map String.mk).foldl (fun acc raw =>
      let line := pyStrip raw
      match splitOnceOn '=' line with
      | none => acc
      | some (k, v) =>
        let key := pyStrip k
        if key = "" then acc else metaSet acc key (pyStrip v)) [])

/-! ### Runtime estimate for normal runs (source lines 355-399).
Real arithmetic is modelled over ℚ with exact constants; the source runs
on IEEE doubles, so results can differ by one unit at rounding ties. -/

def estimateRuntimeWindowSec (durationSec : Option ℚ) (preset mode : String) (jobs : ℤ)
    (useVad forceCpu : Bool) : Option (ℕ × ℕ × ℕ) :=
  match durationSec with
  | none => none
  | some duration =>
    if duration ≤ 0 then none
    else
      let p := if preset ∈ PRESETS then preset else "x4"
      let m := if mode = "single-pass" ∨ mode = "segmented" then mode else "single-pass"
      let j : ℤ := max 1 (min 8 jobs)
      let baseRtf : ℚ := if p = "x1" then 95/100 else if p = "x4" then 55/100
        else if p = "x8" then 30/100 else 18/100
      let rtf0 : ℚ :=
        if m = "segmented" then max (8/100) (baseRtf / (1 + (j - 1) * (55/100)) + 4/100)
        else baseRtf
      let rtf1 := if useVad then rtf0 * (90/100) else rtf0
      let rtf := if forceCpu then rtf1 * (115/100) else rtf1
      let transcribeSec := duration * rtf
      let convertSec : ℚ := max 2 (min 45 (duration * (8/1000)))
      let concatSec : ℚ := if m = "single-pass" then 0 else max 1 (min 20 (duration / 600))
      let totalSec := transcribeSec + convertSec + concatSec
      let low : ℕ := (⌊max 1 (totalSec * (8/10))⌋).toNat
      let high : ℕ := max (low + 1) (⌊totalSec * (14/10)⌋).toNat
      let center : ℕ := (max 1 (pyRound totalSec)).toNat
      some (center, low, high)

/-! ### Progress tracker (source lines 46-47 and 539-555) -/

/-- Model of SEGMENTS_TOTAL_RE.match on the stripped line: literal
"Segments:", optional whitespace, captured digits, optional whitespace,
end of line. -/
def matchSegmentsTotal (text : String) : Option String :=
  match dropLiteral "Segments:".toList text.toList with
  | none => none
  | some rest =>
    let afterWs := rest.dropWhile Char.isWhitespace
    let digits := afterWs.takeWhile Char.isDigit
    if digits = [] then none
    else if (afterWs.dropWhile Char.isDigit).all Char.isWhitespace then
      some (String.mk digits)
    else none

/-- Model of SEGMENT_COMPLETED_RE.match on the stripped line: literal
"[3/4]", whitespace (at least one), "Completed", whitespace (at least one),
"segment_", captured digits, optional whitespace, end of line. -/
def matchSegmentCompleted (text : String) : Option String :=
  match dropLiteral "[3/4]".toList text.toList with
  | none => none
  | some r1 =>
    let r1ws := r1.dropWhile Char.isWhitespace
    if r1ws.length = r1.length then none
    else match dropLiteral "Completed".toList r1ws with
    | none => none
    | some r2 =>
      let r2ws := r2.dropWhile Char.isWhitespace
      if r2ws.length = r2.length then none
      else match dropLiteral "segment_".toList r2ws with
      | none => none
      | some r3 =>
        let digits := r3.takeWhile Char.isDigit
        if digits = [] then none
        else if (r3.dropWhile Char.isDigit).all Char.isWhitespace then
          some (String.mk digits)
        else none

/-! ### The job state store -/

structure PreflightInput where
  durationSec : Option ℚ
deriving DecidableEq

/-- The fields of the preflight JSON object that the core reads.  Option
covers both a missing key and a value of the wrong shape, which the source
treats alike. -/
structure PreflightData where
  verdict : Option String
  corrections : Option (List String)
  input : Option PreflightInput
  recommendedPreset : Option String
deriving DecidableEq

/-- RunState: the mutable fields of AppState.__init__ (source lines
449-502), with the process handle reduced to its pid. -/
structure AppState where
  process : Option ℕ
  status : String
  running : Bool
  startedAt : String
  finishedAt : String
  lastError : String
  uiMessage : String
  inputFile : String
  inputName : String
  preset : String
  priority : String
  modeStrategy : String
  customMode : String
  customJobs : ℕ
  customSegmentTime : ℕ
  resolvedMode : String
  resolvedJobs : ℕ
  resolvedSegmentTime : ℕ
  resolvedModeReason : String
  useVad : Bool
  useVadEffective : Bool
  vadModelPath : String
  forceCpuMode : Bool
  autoCorrection : Bool
  outputName : String
  outputFile : String
  logFile : String
  preflightResult : Option PreflightData
  preflightError : String
  preflightAt : String
  preflightSkipped : Bool
  failureReason : String
  failureAction : String
  appliedCorrections : List String
  runStartedMonotonic : ℚ
  lastHeartbeatSec : ℕ
  progressTotalSegments : ℕ
  progressCompletedSegments : ℕ
  progressCompletedIds : Finset String
  estimatedTotalSec : ℕ
  estimatedLowSec : ℕ
  estimatedHighSec : ℕ
  recoveryMode : String
  recoveryRanges : String
  recoverySegmentTime : String
  recoveryRetryCount : ℕ
  recoveryPreset : String
  recoveryPartialOutput : String
  recoveryOutputName : String
deriving DecidableEq

/-- AppState.__init__ field values (cpu count 0 models os.cpu_count()
returning None; OUTPUTS_DIR comes from the process environment). -/
def AppState.init (cpuCount : ℕ) (outputsDir : String) : AppState where
  process := none
  status := "idle"
  running := false
  startedAt := ""
  finishedAt := ""
  lastError := ""
  uiMessage := ""
  inputFile := ""
  inputName := ""
  preset := "x4"
  priority := "balanced"
  modeStrategy := "auto"
  customMode := "segmented"
  customJobs := max 2 (min 8 ((if cpuCount = 0 then 4 else cpuCount) / 2))
  customSegmentTime := 60
  resolvedMode := ""
  resolvedJobs := 0
  resolvedSegmentTime := 0
  resolvedModeReason := ""
  useVad := false
  useVadEffective := false
  vadModelPath := ""
  forceCpuMode := false
  autoCorrection := true
  outputName := "transcription_result.txt"
  outputFile := pathJoin outputsDir "transcription_result.txt"
  logFile := ""
  preflightResult := none
  preflightError := ""
  preflightAt := ""
  preflightSkipped := false
  failureReason := ""
  failureAction := ""
  appliedCorrections := []
  runStartedMonotonic := 0
  lastHeartbeatSec := 0
  progressTotalSegments := 0
  progressCompletedSegments := 0
  progressCompletedIds := ∅
  estimatedTotalSec := 0
  estimatedLowSec := 0
  estimatedHighSec := 0
  recoveryMode := "failed"
  recoveryRanges := ""
  recoverySegmentTime := ""
  recoveryRetryCount := 1
  recoveryPreset := "keep"
  recoveryPartialOutput := ""
  recoveryOutputName := ""

/-- AppState._update_progress_from_log_line (source lines 539-555). -/
def updateProgressFromLogLine (s : AppState) (line : String) : AppState :=
  let text := pyStrip line
  if text = "" then s
  else match matchSegmentsTotal text with
  | some digits =>
      { s with progressTotalSegments := (parseIntClamped (some digits) 0 0 999999).toNat }
  | none =>
    match matchSegmentCompleted text with
    | some segId =>
      if segId ∈ s.progressCompletedIds then s
      else
        let ids := insert segId s.progressCompletedIds
        { s with progressCompletedIds := ids, progressCompletedSegments := ids.card }
    | none => s

/-- The completed count as the heartbeat reports it (source line 1134):
max(0, min(progress_completed_segments, progress_total_segments)). -/
def heartbeatDone (s : AppState) : ℕ :=
  max 0 (min s.progressCompletedSegments s.progressTotalSegments)

/-! ### Starting a normal run (source lines 506-518, 611-639, 714-925) -/

/-- The fields of the start form that start_with_form reads.  A field is
none when absent; checkbox presence is a Bool. -/
structure StartForm where
  preset : Option String
  autoCorrection : Bool
  useVad : Bool
  modeStrategy : Option String
  customMode : Option String
  customJobs : Option String
  customSegmentTime : Option String
  outputName : Option String

/-- Oracle for the effects start_with_form performs: dependency probes,
file probes, cpu count, VAD asset discovery, clock values and the outcome
of subprocess.Popen (some pid on success). -/
structure StartEnv where
  transcribeScriptExists : Bool
  preflightScriptExists : Bool
  ffmpegOnPath : Bool
  ffprobeOnPath : Bool
  whisperCliOnPath : Bool
  isFile : String → Bool
  cpuCount : ℕ
  vadModelPath : String
  runId : String
  nowText : String
  monotonicNow : ℚ
  popenResult : Option ℕ
  popenError : String
  outputsDir : String
  logsDir : String

/-- form.getfirst(...) or "" coalescing. -/
def formStr (v : Option String) : String := v.getD ""

/-- AppState.dependencies (source lines 506-518). -/
def dependencies (env : StartEnv) : List String :=
  (if env.transcribeScriptExists then [] else ["transcribe_workflow.sh"]) ++
  (if env.preflightScriptExists then [] else ["preflight.sh"]) ++
  (if env.ffmpegOnPath then [] else ["ffmpeg"]) ++
  (if env.ffprobeOnPath then [] else ["ffprobe"]) ++
  (if env.whisperCliOnPath then [] else ["whisper-cli"])

/-- AppState._resolve_mode_config (source lines 611-639). -/
def resolveModeConfig (cpuCount : ℕ) (modeStrategy customMode : String)
    (customJobs customSegmentTime : ℕ) (pf : Option PreflightData)
    (preset priority : String) : AutoModeDecision :=
  let durationSec : Option ℚ := match pf with
    | some d => match d.input with
      | some i => i.durationSec
      | none => none
    | none => none
  if modeStrategy = "custom" then
    if customMode = "segmented" then
      { mode := "segmented", jobs := customJobs, segmentTime := customSegmentTime,
        reason := "カスタム指定: 分割並列 (jobs=" ++ toString customJobs ++ ", " ++
          toString customSegmentTime ++ "秒分割)" }
    else
      { mode := "single-pass", jobs := 1, segmentTime := 240, reason := "カスタム指定: 単一パス" }
  else
    let auto := recommendAutoMode durationSec preset priority cpuCount
    { auto with reason := "自動最適化: " ++ auto.reason }

/-- AppState.start_with_form (source lines 714-925).  Log writes, process
environment variables and the spawned worker threads are effects outside
the state model; everything that reaches RunState is modelled. -/
def startWithForm (env : StartEnv) (s : AppState) (form : StartForm) :
    AppState × (Bool × String) :=
  if s.running then (s, (false, "すでに実行中です。"))
  else
    let missing := dependencies env
    if missing ≠ [] then (s, (false, "依存不足: " ++ String.intercalate ", " missing))
    else
      let preset0 := if formStr form.preset ≠ "" then pyStrip (formStr form.preset) else "x4"
      let preset := if preset0 ∈ PRESETS then preset0 else "x4"
      let autoCorrection := form.autoCorrection
      let useVad := form.useVad
      let modeStrategy0 := pyStrip (formStr form.modeStrategy)
      let modeStrategy := if modeStrategy0 ∈ MODE_STRATEGIES then modeStrategy0 else "auto"
      let customMode0 := pyStrip (formStr form.customMode)
      let customMode := if customMode0 ∈ CUSTOM_MODES then customMode0 else "segmented"
      let customJobs := (parseIntClamped form.customJobs (s.customJobs : ℤ) 1 8).toNat
      let customSegmentTime :=
        (parseIntClamped form.customSegmentTime (s.customSegmentTime : ℤ) 30 600).toNat
      let outputName0 :=
        if formStr form.outputName ≠ "" then pyStrip (formStr form.outputName)
        else "transcription_result.txt"
      let outputName1 := sanitizeFilename outputName0 "transcription_result.txt"
      let outputName := if strEndsWith outputName1 ".txt" then outputName1 else outputName1 ++ ".txt"
      let outputFile := pathJoin env.outputsDir outputName
      let inputPath := s.inputFile
      if inputPath = "" ∨ ¬ env.isFile inputPath then
        (s, (false, "先に音声ファイルをアップロードして診断してください。"))
      else if s.preflightResult = none ∧ ¬ s.preflightSkipped then
        (s, (false, "先にPreflight診断を実行してください。"))
      else
        let verdict := match s.preflightResult with
          | some pf => (pf.verdict.map fun v => pyOr v "").getD ""
          | none => ""
        let corrections : List String := match s.preflightResult with
          | some pf => pf.corrections.getD []
          | none => []
        if verdict = "NOT_RECOMMENDED" then
          (s, (false, "診断結果が非推奨のため開始できません。別形式で保存し直してください。"))
        else
          let normalizeEnabled := autoCorrection && corrections.contains "volume_normalize"
          let modeConfig := resolveModeConfig env.cpuCount modeStrategy customMode
            customJobs customSegmentTime s.preflightResult preset s.priority
          let resolvedMode := modeConfig.mode
          let resolvedJobs := clampNat modeConfig.jobs 1 8
          let resolvedSegmentTime := clampNat modeConfig.segmentTime 30 600
          let useVadEffective0 := useVad && resolvedMode == "single-pass"
          let reason1 := if useVad && resolvedMode == "segmented" then
              modeConfig.reason ++ " / VADは安定性のため単一パス時のみ有効"
            else modeConfig.reason
          let vadMissing := useVadEffective0 && env.vadModelPath == ""
          let vadModelPath := if useVadEffective0 then env.vadModelPath else ""
          let useVadEffective := if vadMissing then false else useVadEffective0
          let resolvedReason := if vadMissing then reason1 ++ " / VADモデル未検出のため無効" else reason1
          let durationForEstimate : Option ℚ := match s.preflightResult with
            | some pf => match pf.input with
              | some i => i.durationSec
              | none => none
            | none => none
          let estimateWindow := estimateRuntimeWindowSec durationForEstimate preset resolvedMode
            (if resolvedMode = "segmented" then (resolvedJobs : ℤ) else 1)
            useVadEffective s.forceCpuMode
          let logFile := pathJoin env.logsDir ("run_" ++ env.runId ++ ".log")
          match env.popenResult with
          | none => (s, (false, "起動失敗: " ++ env.popenError))
          | some pid =>
            ({ s with
                process := some pid
                running := true
                status := "running"
                startedAt := env.nowText
                runStartedMonotonic := env.monotonicNow
                lastHeartbeatSec := 0
                progressTotalSegments := 0
                progressCompletedSegments := 0
                progressCompletedIds := ∅
                estimatedTotalSec := (estimateWindow.map fun w => w.1).getD 0
                estimatedLowSec := (estimateWindow.map fun w => w.2.1).getD 0
                estimatedHighSec := (estimateWindow.map fun w => w.2.2).getD 0
                finishedAt := ""
                lastError := ""
                failureReason := ""
                failureAction := ""
                uiMessage := "実行を開始しました。"
                inputFile := inputPath
                preset := preset
                modeStrategy := modeStrategy
                customMode := customMode
                customJobs := customJobs
                customSegmentTime := customSegmentTime
                resolvedMode := resolvedMode
                resolvedJobs := if resolvedMode = "segmented" then resolvedJobs else 1
                resolvedSegmentTime := if resolvedMode = "segmented" then resolvedSegmentTime else 240
                resolvedModeReason := resolvedReason
                useVad := useVad
                useVadEffective := useVadEffective
                vadModelPath := vadModelPath
                autoCorrection := autoCorrection
                appliedCorrections := if normalizeEnabled then ["volume_normalize"] else []
                outputName := outputName
                outputFile := outputFile
                logFile := logFile },
             (true, "started"))

/-! ### Recovery coordinator (source lines 927-1110) -/

/-- The fields of the recovery form that retry_failed_with_form reads. -/
structure RetryForm where
  recoveryMode : Option String
  recoveryRanges : Option String
  recoveryRetryCount : Option String
  recoveryPreset : Option String
  recoveryPartialOutput : Option String
  recoveryOutputName : Option String
  recoverySegmentTime : Option String

/-- Oracle for the effects retry_failed_with_form performs.  metaContent
is the text of the partial output's .recovery_meta sidecar (none when the
file is missing or unreadable); failedListContent that of its
.failed_segments.txt (none when a read raises OSError, which the source
counts as zero lines). -/
structure RetryEnv where
  isFile : String → Bool
  retryScriptExists : Bool
  metaContent : Option String
  failedListContent : Option String
  writeTargetsOk : Bool
  writeTargetsError : String
  popenResult : Option ℕ
  popenError : String
  runId : String
  nowText : String
  monotonicNow : ℚ
  outputsDir : String
  logsDir : String

/-- One line of the failed-segments sidecar, re.fullmatch of optional
whitespace, "segment_", digits, optional whitespace. -/
def matchesFailedSegmentLine (line : String) : Bool :=
  match dropLiteral "segment_".toList (line.toList.dropWhile Char.isWhitespace) with
  | none => false
  | some r =>
    let ds := r.takeWhile Char.isDigit
    decide (ds ≠ []) && (r.dropWhile Char.isDigit).all Char.isWhitespace

/-- The recovery mode as retry_failed_with_form resolves it: form value,
else the stored value, else "failed"; anything outside RECOVERY_MODES
falls back to "failed" (source lines 946-948). -/
def resolvedRecoveryMode (s : AppState) (form : RetryForm) : String :=
  let m := pyStrip (pyOr (formStr form.recoveryMode) (pyOr s.recoveryMode "failed"))
  if m ∈ RECOVERY_MODES then m else "failed"

/-- The segment-time-override text as the source reads it (line 966). -/
def retryOverrideText (form : RetryForm) : String :=
  pyStrip (formStr form.recoverySegmentTime)

/-- The recovery-run estimate (source lines 1047-1055).  The source
computes 0.35/0.7/1.6 products in IEEE doubles; here they are exact
rationals rounded half-to-even, which can differ by one unit at ties. -/
def retryEstimate (segmentTimeEffective targetCount : ℕ) : ℕ × ℕ × ℕ :=
  if 0 < segmentTimeEffective ∧ 0 < targetCount then
    let perSeg := max 8 (pyRound ((segmentTimeEffective : ℚ) * (35/100))).toNat
    let estTotal := targetCount * perSeg + 10
    let estLow := max 1 (pyRound ((estTotal : ℚ) * (7/10))).toNat
    let estHigh := max (estLow + 1) (pyRound ((estTotal : ℚ) * (16/10))).toNat
    (estTotal, estLow, estHigh)
  else (0, 0, 0)

/-- The launch-and-mutate tail of retry_failed_with_form (source lines
1030-1110), shared by both retry strategies.  The Bool in the result
records that the external recovery process launch was attempted. -/
def retryLaunch (env : RetryEnv) (s : AppState)
    (_inputPath partialOutput recoveredOutput mode rangesText overrideText presetOpt
      _failedFile : String) (retryCount targetCount segmentTimeEffective : ℕ) :
    AppState × (Bool × String) × Bool :=
  match env.popenResult with
  | none => (s, (false, "追補起動に失敗しました: " ++ env.popenError), true)
  | some pid =>
    let est := retryEstimate segmentTimeEffective targetCount
    ({ s with
        process := some pid
        running := true
        status := "running"
        startedAt := env.nowText
        runStartedMonotonic := env.monotonicNow
        lastHeartbeatSec := 0
        progressTotalSegments := 0
        progressCompletedSegments := 0
        progressCompletedIds := ∅
        estimatedTotalSec := est.1
        estimatedLowSec := est.2.1
        estimatedHighSec := est.2.2
        finishedAt := ""
        lastError := ""
        failureReason := ""
        failureAction := ""
        uiMessage := "失敗区間の追補を開始しました。"
        recoveryMode := mode
        recoveryRanges := rangesText
        recoverySegmentTime := overrideText
        recoveryRetryCount := retryCount
        recoveryPreset := presetOpt
        recoveryPartialOutput := pyBasename partialOutput
        recoveryOutputName := pyBasename recoveredOutput
        resolvedMode := "recovery"
        resolvedModeReason := "失敗区間追補"
        useVadEffective := false
        vadModelPath := ""
        outputName := pyBasename recoveredOutput
        outputFile := recoveredOutput
        logFile := pathJoin env.logsDir ("retry_" ++ env.runId ++ ".log") },
     (true, "retry-started"), true)

/-- AppState.retry_failed_with_form (source lines 927-1110).  The last
component of the result is true exactly when the external recovery
process launch was attempted (the subprocess.Popen call was reached). -/
def retryFailedWithForm (env : RetryEnv) (s : AppState) (form : RetryForm) :
    AppState × (Bool × String) × Bool :=
  if s.running then (s, (false, "すでに実行中です。"), false)
  else
    let inputPath := s.inputFile
    if inputPath = "" ∨ ¬ env.isFile inputPath then
      (s, (false, "入力音声が見つかりません。先に通常実行を行ってください。"), false)
    else if ¬ env.retryScriptExists then
      (s, (false, "retry_failed_segments.sh が見つかりません。"), false)
    else
      let mode := resolvedRecoveryMode s form
      let rangesText := pyStrip (pyOr (formStr form.recoveryRanges) (pyOr s.recoveryRanges ""))
      let retryCount := (parseIntClamped form.recoveryRetryCount (s.recoveryRetryCount : ℤ) 1 5).toNat
      let presetOpt0 := pyStrip (pyOr (formStr form.recoveryPreset) (pyOr s.recoveryPreset "keep"))
      let presetOpt := if presetOpt0 ≠ "keep" ∧ presetOpt0 ∉ PRESETS then "keep" else presetOpt0
      let partialDefaultName := pyOr (pyBasename s.outputFile) "transcription_result.txt"
      let partialInput :=
        pyStrip (pyOr (formStr form.recoveryPartialOutput) (pyOr s.recoveryPartialOutput partialDefaultName))
      let partialOutput := resolveOutputPath env.outputsDir partialInput partialDefaultName
      if ¬ env.isFile partialOutput then
        (s, (false, "部分結果ファイルが見つかりません: " ++ partialOutput), false)
      else
        let recoveredDefaultName := defaultRecoveredOutputName partialOutput
        let recoveredInput :=
          pyStrip (pyOr (formStr form.recoveryOutputName) (pyOr s.recoveryOutputName recoveredDefaultName))
        let recoveredOutput := resolveOutputPath env.outputsDir recoveredInput recoveredDefaultName
        let overrideText := retryOverrideText form
        match (if overrideText = "" then some 0 else parsePyInt overrideText) with
        | none => (s, (false, "分割秒は整数で指定してください: " ++ overrideText), false)
        | some ov =>
          if overrideText ≠ "" ∧ (ov < 30 ∨ 3600 < ov) then
            (s, (false, "分割秒は 30〜3600 の範囲で指定してください。"), false)
          else
            let meta := readRecoveryMeta env.metaContent
            let segFromMeta := (parseIntClamped (metaGet meta "SEGMENT_TIME") 0 0 3600).toNat
            let segFromState :=
              if s.resolvedMode = "segmented" then clampNat s.resolvedSegmentTime 0 3600 else 0
            let segmentTimeEffective := pyOrNat ov.toNat (pyOrNat segFromMeta segFromState)
            let failedFile0 := partialOutput ++ ".failed_segments.txt"
            if mode = "failed" then
              if ¬ env.isFile failedFile0 then
                (s, (false, "失敗セグメント一覧が見つかりません: " ++ failedFile0), false)
              else
                let targetCount := match env.failedListContent with
                  | some txt => (((splitOnChar '\n' txt.toList).map String.mk).filter matchesFailedSegmentLine).length
                  | none => 0
                if targetCount = 0 then (s, (false, "失敗セグメント一覧が空です。"), false)
                else retryLaunch env s inputPath partialOutput recoveredOutput mode rangesText
                  overrideText presetOpt failedFile0 retryCount targetCount segmentTimeEffective
            else
              if rangesText = "" then
                (s, (false, "時刻範囲を入力してください。例: 00:10:00-00:12:30, 00:31:00"), false)
              else if segmentTimeEffective = 0 then
                (s, (false, "分割秒を特定できません。`分割秒` を入力して再実行してください。"), false)
              else
                match buildSegmentIdsFromRanges rangesText (segmentTimeEffective : ℤ) with
                | (_, some e) => (s, (false, e), false)
                | (ids, none) =>
                  let failedFile := pathJoin env.logsDir ("retry_targets_" ++ env.runId ++ ".txt")
                  if ¬ env.writeTargetsOk then
                    (s, (false, "時刻範囲の保存に失敗しました: " ++ env.writeTargetsError), false)
                  else retryLaunch env s inputPath partialOutput recoveredOutput mode rangesText
                    overrideText presetOpt failedFile retryCount ids.length segmentTimeEffective

/-! ### Cancellation and exit handling (source lines 1159-1247) -/

/-- Externally visible actions of the supervisor's cancellation and exit
machinery: a signal to the whole process group, or blocking on the
process's exit. -/
inductive SigEffect where
  | termGroup (pgid : ℕ)
  | killGroup (pgid : ℕ)
  | waitProc
deriving DecidableEq, Repr

/-- Oracle for cancel(): the process group id and whether the
getpgid/killpg pair raises (killOk = false means an exception, in which
case no signal is delivered). -/
structure CancelEnv where
  pgid : ℕ
  killOk : Bool
  errText : String

/-- AppState.cancel (source lines 1231-1247), with its delivered signals
as an explicit trace. -/
def cancel (env : CancelEnv) (s : AppState) : AppState × (Bool × String) × List SigEffect :=
  if s.process = none ∨ s.running = false then
    (s, (false, "実行中ジョブがありません。"), [])
  else
    let s1 := { s with status := "canceled" }
    if env.killOk then
      ({ s1 with uiMessage := "キャンセル要求を送信しました。" }, (true, "canceled"),
        [SigEffect.termGroup env.pgid])
    else
      ({ s1 with status := "running" }, (false, "キャンセル失敗: " ++ env.errText), [])

/-- AppState._failure_guidance (source lines 1159-1185): the ordered
failure-signature table over the lowercased log tail. -/
def failureGuidance (logText : String) : String × String :=
  let lower := pyLower logText
  if strContains lower "ggml-metal-device.m" ||
      (strContains lower "failed to process audio" && strContains lower "vad") then
    ("VAD実行時に内部エラーが発生しました。",
     "VADをOFFにして再試行してください（今回の実装では失敗時に自動でVAD OFF再試行します）。")
  else if strContains lower "model file not found" || strContains lower "download example:" then
    ("モデルファイルが見つかりません。", "`./install_models.sh` を実行してください。")
  else if strContains lower "no space left on device" then
    ("ディスク容量が不足しています。", "不要ファイルを削除してから再実行してください。")
  else if strContains lower "failed after" && strContains lower "attempt" then
    ("whisper-cli のリトライがすべて失敗しました。", "軽量プリセット (x8/x16) で再試行してください。")
  else if strContains lower "converting to 16khz wav" &&
      (strContains lower "invalid data" || strContains lower "error while" ||
        strContains lower "could not" || strContains lower "failed") then
    ("音声ファイルの変換に失敗しました。", "別形式 (m4a/mp3/wav) で保存し直して再実行してください。")
  else
    ("処理に失敗しました。", "ログを確認し、必要に応じて軽量プリセットで再試行してください。")

/-- Oracle for _wait_finish: wall-clock text and the two log tails it
reads. -/
structure FinishEnv where
  nowText : String
  logTail200 : String
  logTail800 : String

/-- AppState._wait_finish (source lines 1187-1229).  procIsCurrent is the
defensive proc-is-self.process check; rc the exit code.  The deletion of a
zero-byte output file is a filesystem effect outside the state model; the
blocking proc.wait() is recorded as the waitProc effect. -/
def waitFinish (env : FinishEnv) (procIsCurrent : Bool) (s : AppState) (rc : ℤ) :
    AppState × List SigEffect :=
  if ¬ procIsCurrent then (s, [SigEffect.waitProc])
  else
    let s0 := { s with running := false, finishedAt := env.nowText, process := none,
                       runStartedMonotonic := 0, lastHeartbeatSec := 0 }
    if s0.status = "canceled" then
      ({ s0 with status := "canceled", uiMessage := "キャンセルしました。" }, [SigEffect.waitProc])
    else if rc = 0 then
      ({ s0 with
          status := "completed"
          uiMessage := (if strContains (pyLower env.logTail200) "completed with warnings" then
              "一部失敗ありで完了しました。" else "完了しました。") }, [SigEffect.waitProc])
    else
      let s1 := { s0 with status := "failed", lastError := "exit=" ++ toString rc }
      let s2 := if strContains (pyLower env.logTail800) "ggml-metal-device.m" then
          { s1 with forceCpuMode := true }
        else s1
      let g := failureGuidance env.logTail800
      ({ s2 with
          failureReason := g.1
          failureAction := g.2
          uiMessage := "失敗しました (exit=" ++ toString rc ++ ")" }, [SigEffect.waitProc])

/-! ### Concrete sample data used by witnesses -/

/-- A store state with a live run: the initial state after the mutation a
successful launch performs on the fields relevant here. -/
def runningSample : AppState :=
  { AppState.init 8 "/out" with
      status := "running"
      running := true
      process := some 77
      inputFile := "/tmp/audio.m4a"
      startedAt := "2026-01-01 00:00:00" }

/-- A cancel environment in which the group signal is delivered. -/
def sampleCancelEnv : CancelEnv where
  pgid := 77
  killOk := true
  errText := ""

/-- A cancel environment in which os.killpg raises. -/
def sampleCancelEnvRaises : CancelEnv where
  pgid := 77
  killOk := false
  errText := "boom"

/-- An exit-waiter environment with empty log tails. -/
def sampleFinishEnv : FinishEnv where
  nowText := "2026-01-01 00:10:00"
  logTail200 := ""
  logTail800 := ""

/-- A start environment where every dependency and file probe succeeds. -/
def sampleStartEnv : StartEnv where
  transcribeScriptExists := true
  preflightScriptExists := true
  ffmpegOnPath := true
  ffprobeOnPath := true
  whisperCliOnPath := true
  isFile := fun _ => true
  cpuCount := 8
  vadModelPath := ""
  runId := "20260101_000000"
  nowText := "2026-01-01 00:00:00"
  monotonicNow := 1
  popenResult := some 42
  popenError := ""
  outputsDir := "/out"
  logsDir := "/logs"

/-- An empty start form (every field absent, checkboxes unticked). -/
def sampleStartForm : StartForm where
  preset := none
  autoCorrection := false
  useVad := false
  modeStrategy := none
  customMode := none
  customJobs := none
  customSegmentTime := none
  outputName := none

/-- A recovery environment where file probes succeed but neither sidecar
is present. -/
def sampleRetryEnv : RetryEnv where
  isFile := fun _ => true
  retryScriptExists := true
  metaContent := none
  failedListContent := none
  writeTargetsOk := true
  writeTargetsError := ""
  popenResult := some 43
  popenError := ""
  runId := "20260101_000100"
  nowText := "2026-01-01 00:01:00"
  monotonicNow := 2
  outputsDir := "/out"
  logsDir := "/logs"

/-- A time-range recovery form with no segment-time override. -/
def sampleRetryForm : RetryForm where
  recoveryMode := some "time_range"
  recoveryRanges := some "00:10:00-00:12:30"
  recoveryRetryCount := none
  recoveryPreset := none
  recoveryPartialOutput := none
  recoveryOutputName := none
  recoverySegmentTime := none

/-- A store state that has a prior input on disk but never resolved a
segmented run (resolved_mode is still the empty initial value). -/
def idleSampleWithInput : AppState :=
  { AppState.init 8 "/out" with inputFile := "/tmp/audio.m4a" }

/-! ## Theorems -/

/-- Bounds of the priority/preset adjustment stage of recommend_auto_mode:
from a bucket value with jobs in [2,8] and segment time in [60,300], the
adjusted decision stays segmented with jobs in [2,8] and segment time in
[60,300]. -/
theorem autoSegmented_bounds (duration : ℚ) (prio modelPreset : String) (j0 t0 : ℕ)
    (hj1 : 2 ≤ j0) (hj2 : j0 ≤ 8) (ht1 : 60 ≤ t0) (ht2 : t0 ≤ 300) :
    (autoSegmented duration prio modelPreset j0 t0).mode = "segmented" ∧
    2 ≤ (autoSegmented duration prio modelPreset j0 t0).jobs ∧
    (autoSegmented duration prio modelPreset j0 t0).jobs ≤ 8 ∧
    60 ≤ (autoSegmented duration prio modelPreset j0 t0).segmentTime ∧
    (autoSegmented duration prio modelPreset j0 t0).segmentTime ≤ 300 := by
  simp only [autoSegmented]
  refine ⟨trivial, ?_, ?_, ?_, ?_⟩ <;> (split_ifs <;> omega)

/-- The half-cpu local is at least 2. -/
theorem two_le_halfCpuOf (c : ℕ) : 2 ≤ halfCpuOf c := le_max_left 2 _

/-- C1: the claim as stated is FALSE on the code.  At duration 7200s,
preset x1, priority accuracy and cpu_count 4 the recommendation is
segmented but with a job count of 2: the accuracy priority and the x1
preset each subtract one job with a floor of 2, taking the count below
the claimed lower bound 4. -/
theorem C1_counterexample :
    ¬ ((recommendAutoMode (some 7200) "x1" "accuracy" 4).mode = "segmented" ∧
       4 ≤ (recommendAutoMode (some 7200) "x1" "accuracy" 4).jobs ∧
       (recommendAutoMode (some 7200) "x1" "accuracy" 4).jobs ≤ 8 ∧
       60 ≤ (recommendAutoMode (some 7200) "x1" "accuracy" 4).segmentTime ∧
       (recommendAutoMode (some 7200) "x1" "accuracy" 4).segmentTime ≤ 300) := by
  have hj : (recommendAutoMode (some 7200) "x1" "accuracy" 4).jobs = 2 := by
    simp only [recommendAutoMode, Option.getD_some]
    rw [if_pos (by norm_num : (120 * 60 : ℚ) ≤ 7200)]
    rfl
  intro h
  rcases h with ⟨-, h4, -, -, -⟩
  rw [hj] at h4
  exact absurd h4 (by norm_num)

/-- C1 (amended): for every duration of at least 7200 seconds, every
preset in PRESETS, every priority in PRIORITIES and every cpu count,
recommend_auto_mode returns segmented mode with a job count in [2,8] and
a segment duration in [60,300] seconds. -/
theorem C1_auto_mode_two_hours (d : ℚ) (preset priority : String) (cpu : ℕ)
    (hd : 7200 ≤ d) (_hp : preset ∈ PRESETS) (_hq : priority ∈ PRIORITIES) :
    (recommendAutoMode (some d) preset priority cpu).mode = "segmented" ∧
    2 ≤ (recommendAutoMode (some d) preset priority cpu).jobs ∧
    (recommendAutoMode (some d) preset priority cpu).jobs ≤ 8 ∧
    60 ≤ (recommendAutoMode (some d) preset priority cpu).segmentTime ∧
    (recommendAutoMode (some d) preset priority cpu).segmentTime ≤ 300 := by
  have hcpu := two_le_halfCpuOf cpu
  simp only [recommendAutoMode, Option.getD_some]
  rw [if_pos (by linarith : (120 * 60 : ℚ) ≤ d)]
  exact autoSegmented_bounds _ _ _ _ _ (by omega) (by omega) (by omega) (by omega)

/-- Witness for C1 (amended) at duration 7200, preset x1, priority
accuracy, cpu count 4. -/
theorem C1_witness :
    (7200 : ℚ) ≤ 7200 ∧ "x1" ∈ PRESETS ∧ "accuracy" ∈ PRIORITIES ∧
    ((recommendAutoMode (some 7200) "x1" "accuracy" 4).mode = "segmented" ∧
     2 ≤ (recommendAutoMode (some 7200) "x1" "accuracy" 4).jobs ∧
     (recommendAutoMode (some 7200) "x1" "accuracy" 4).jobs ≤ 8 ∧
     60 ≤ (recommendAutoMode (some 7200) "x1" "accuracy" 4).segmentTime ∧
     (recommendAutoMode (some 7200) "x1" "accuracy" 4).segmentTime ≤ 300) :=
  ⟨le_refl _, by decide, by decide,
    C1_auto_mode_two_hours 7200 "x1" "accuracy" 4 (le_refl _) (by decide) (by decide)⟩

/-- C3: for every well-formed range with start strictly before end and
positive segment duration, the per-range index set of
build_segment_ids_from_ranges is exactly the inclusive interval from
start div seg to (end - 1) div seg; and on the concrete input
"00:10:00-00:12:30" with 120-second segments the builder returns
segment_005 and segment_006 with no error. -/
theorem C3_range_segment_ids :
    (∀ s e seg : ℕ, 0 < seg → s < e →
        ∀ i : ℕ, i ∈ rangeSegmentIdxs s e seg ↔ s / seg ≤ i ∧ i ≤ (e - 1) / seg) ∧
    buildSegmentIdsFromRanges "00:10:00-00:12:30" 120 =
      (["segment_005", "segment_006"], none) := by
  constructor
  · intro s e seg _ hlt i
    have h2 : s / seg ≤ (e - 1) / seg := Nat.div_le_div_right (by omega)
    simp only [rangeSegmentIdxs, List.mem_range'_1]
    generalize s / seg = F at h2 ⊢
    generalize (e - 1) / seg = D at h2 ⊢
    omega
  · decide

/-- Witness for C3 on the parsed bounds of "00:10:00-00:12:30" with
120-second segments: index 6 lies in the produced set because it lies in
the inclusive interval 600 div 120 .. 749 div 120. -/
theorem C3_witness :
    (0 : ℕ) < 120 ∧ 600 < 750 ∧
    (6 ∈ rangeSegmentIdxs 600 750 120 ↔ 600 / 120 ≤ 6 ∧ 6 ≤ (750 - 1) / 120) :=
  ⟨by decide, by decide, C3_range_segment_ids.1 600 750 120 (by decide) (by decide) 6⟩

/-- C2: a start request while the store's status is "running" (in every
reachable state, status "running" and the running flag are set and
cleared together under the store's lock, so both hypotheses hold) fails
with the already-running validation error and returns the state
completely unchanged. -/
theorem C2_start_while_running_rejected (env : StartEnv) (s : AppState) (form : StartForm)
    (_hst : s.status = "running") (hrun : s.running = true) :
    startWithForm env s form = (s, (false, "すでに実行中です。")) := by
  unfold startWithForm
  rw [hrun]
  simp

/-- Witness for C2: a concrete running state rejects a start request and
is unchanged by it. -/
theorem C2_witness :
    runningSample.status = "running" ∧ runningSample.running = true ∧
    startWithForm sampleStartEnv runningSample sampleStartForm =
      (runningSample, (false, "すでに実行中です。")) :=
  ⟨rfl, rfl, C2_start_while_running_rejected sampleStartEnv runningSample sampleStartForm rfl rfl⟩

/-- Applying the progress-line parser twice with the same line gives the
same state as applying it once: the total is overwritten with the same
value, and a completed id already in the set is not re-added. -/
theorem updateProgress_self_idem (s : AppState) (line : String) :
    updateProgressFromLogLine (updateProgressFromLogLine s line) line =
      updateProgressFromLogLine s line := by
  unfold updateProgressFromLogLine
  by_cases h0 : pyStrip line = ""
  · simp [h0]
  · simp only [h0, if_false]
    cases ht : matchSegmentsTotal (pyStrip line) with
    | some d => simp [ht]
    | none =>
      cases hd : matchSegmentCompleted (pyStrip line) with
      | some segId =>
        by_cases hmem : segId ∈ s.progressCompletedIds
        · simp [ht, hd, hmem]
        · simp [ht, hd, hmem, Finset.mem_insert_self]
      | none => simp [ht, hd]

/-- C7: feeding the progress tracker the same line twice leaves both the
completed-identifier set and the completed count exactly as they are
after feeding it once, for every line and every tracker state. -/
theorem C7_progress_line_idempotent (s : AppState) (line : String) :
    (updateProgressFromLogLine (updateProgressFromLogLine s line) line).progressCompletedIds =
      (updateProgressFromLogLine s line).progressCompletedIds ∧
    (updateProgressFromLogLine (updateProgressFromLogLine s line) line).progressCompletedSegments =
      (updateProgressFromLogLine s line).progressCompletedSegments :=
  ⟨congrArg AppState.progressCompletedIds (updateProgress_self_idem s line),
   congrArg AppState.progressCompletedSegments (updateProgress_self_idem s line)⟩

/-- C8: the exposed completed count equals the cardinality of the
completed-identifier set (it holds initially and every progress-line
update preserves it), and the value the heartbeat reports is clamped to
the interval from 0 to the declared total. -/
theorem C8_completed_count_card_and_clamped :
    (∀ cpu dir, (AppState.init cpu dir).progressCompletedSegments =
        (AppState.init cpu dir).progressCompletedIds.card) ∧
    (∀ s line, s.progressCompletedSegments = s.progressCompletedIds.card →
        (updateProgressFromLogLine s line).progressCompletedSegments =
          (updateProgressFromLogLine s line).progressCompletedIds.card) ∧
    (∀ s, heartbeatDone s ≤ s.progressTotalSegments ∧ 0 ≤ heartbeatDone s) := by
  refine ⟨fun cpu dir => by simp [AppState.init], fun s line h => ?_,
    fun s => ⟨by simp [heartbeatDone], Nat.zero_le _⟩⟩
  unfold updateProgressFromLogLine
  by_cases h0 : pyStrip line = ""
  · simpa [h0] using h
  · simp only [h0, if_false]
    cases ht : matchSegmentsTotal (pyStrip line) with
    | some d => simpa [ht] using h
    | none =>
      cases hd : matchSegmentCompleted (pyStrip line) with
      | some segId =>
        by_cases hmem : segId ∈ s.progressCompletedIds
        · simpa [ht, hd, hmem] using h
        · simp [ht, hd, hmem]
      | none => simpa [ht, hd] using h

/-- Witness for C8 at a concrete state and line: the count-equals-card
invariant holds of the initial state, is preserved by a concrete
completion line, and the heartbeat value is clamped. -/
theorem C8_witness :
    ((updateProgressFromLogLine (AppState.init 8 "/out") "[3/4] Completed segment_007").progressCompletedSegments =
      (updateProgressFromLogLine (AppState.init 8 "/out") "[3/4] Completed segment_007").progressCompletedIds.card) ∧
    heartbeatDone (AppState.init 8 "/out") ≤ (AppState.init 8 "/out").progressTotalSegments :=
  ⟨C8_completed_count_card_and_clamped.2.1 (AppState.init 8 "/out")
      "[3/4] Completed segment_007" (C8_completed_count_card_and_clamped.1 8 "/out"),
   (C8_completed_count_card_and_clamped.2.2 (AppState.init 8 "/out")).1⟩

/-- A successful cancel on a live run only marks the status canceled and
updates the user message. -/
theorem cancel_ok_state (cenv : CancelEnv) (s : AppState)
    (hp : s.process ≠ none) (hr : s.running = true) (hk : cenv.killOk = true) :
    (cancel cenv s).1 =
      { s with status := "canceled", uiMessage := "キャンセル要求を送信しました。" } := by
  unfold cancel
  rw [if_neg (by simp [hp, hr]), hk]
  simp

/-- C4: once cancel() has marked the status canceled, the exit handler
classifies the run as canceled for every exit code: the terminal status
is "canceled" and in particular never "failed". -/
theorem C4_cancel_then_exit_is_canceled (cenv : CancelEnv) (fenv : FinishEnv) (s : AppState)
    (rc : ℤ) (hp : s.process ≠ none) (hr : s.running = true) (hk : cenv.killOk = true) :
    (waitFinish fenv true (cancel cenv s).1 rc).1.status = "canceled" ∧
    (waitFinish fenv true (cancel cenv s).1 rc).1.status ≠ "failed" := by
  rw [cancel_ok_state cenv s hp hr hk]
  unfold waitFinish
  simp

/-- Witness for C4 at a concrete live run, with a nonzero exit code
arriving after cancellation. -/
theorem C4_witness :
    runningSample.process ≠ none ∧ runningSample.running = true ∧
    sampleCancelEnv.killOk = true ∧
    ((waitFinish sampleFinishEnv true (cancel sampleCancelEnv runningSample).1 137).1.status =
        "canceled" ∧
     (waitFinish sampleFinishEnv true (cancel sampleCancelEnv runningSample).1 137).1.status ≠
        "failed") :=
  ⟨by decide, rfl, rfl,
    C4_cancel_then_exit_is_canceled sampleCancelEnv sampleFinishEnv runningSample 137
      (by decide) rfl rfl⟩

/-- C5: the claim as stated is FALSE on the code.  The complete signal
trace of the web supervisor's cancellation pathway - the signals cancel()
delivers plus those of the exit waiter that later observes the process -
consists of exactly one graceful group termination signal; no
unconditional-kill signal is ever sent, even when the process outlives
any grace window (here it is still running 137s later, far beyond 5s).
The 5-second SIGTERM-then-SIGKILL escalation exists only in the desktop
GUI (whisper_gui.py cancel_transcription), and there the caller blocks
during the wait. -/
theorem C5_counterexample :
    ((cancel sampleCancelEnv runningSample).2.2 ++
        (waitFinish sampleFinishEnv true (cancel sampleCancelEnv runningSample).1 137).2 =
      [SigEffect.termGroup 77, SigEffect.waitProc]) ∧
    SigEffect.killGroup 77 ∉
      (cancel sampleCancelEnv runningSample).2.2 ++
        (waitFinish sampleFinishEnv true (cancel sampleCancelEnv runningSample).1 137).2 := by
  constructor
  · rfl
  · decide

/-- C5 (amended): on cancellation of a live run, exactly one graceful
termination signal is sent, addressed to the entire process group; the
web supervisor never sends an unconditional-kill signal; and the caller
of cancel() never waits on the process - the only wait action is the exit
waiter's. -/
theorem C5_cancel_graceful_group_nonblocking (cenv : CancelEnv) (s : AppState)
    (hp : s.process ≠ none) (hr : s.running = true) (hk : cenv.killOk = true) :
    (cancel cenv s).2.2 = [SigEffect.termGroup cenv.pgid] ∧
    (∀ p, SigEffect.killGroup p ∉ (cancel cenv s).2.2) ∧
    SigEffect.waitProc ∉ (cancel cenv s).2.2 ∧
    (∀ fenv pc rc, (waitFinish fenv pc s rc).2 = [SigEffect.waitProc]) := by
  have htr : (cancel cenv s).2.2 = [SigEffect.termGroup cenv.pgid] := by
    unfold cancel
    rw [if_neg (by simp [hp, hr]), hk]
    simp
  refine ⟨htr, ?_, ?_, ?_⟩
  · intro p
    rw [htr]
    simp
  · rw [htr]
    simp
  · intro fenv pc rc
    simp only [waitFinish]
    split_ifs <;> rfl

/-- Witness for C5 (amended) at a concrete live run. -/
theorem C5_witness :
    runningSample.process ≠ none ∧ runningSample.running = true ∧
    sampleCancelEnv.killOk = true ∧
    ((cancel sampleCancelEnv runningSample).2.2 = [SigEffect.termGroup 77] ∧
     (∀ p, SigEffect.killGroup p ∉ (cancel sampleCancelEnv runningSample).2.2) ∧
     SigEffect.waitProc ∉ (cancel sampleCancelEnv runningSample).2.2 ∧
     (∀ fenv pc rc, (waitFinish fenv pc runningSample rc).2 = [SigEffect.waitProc])) :=
  ⟨by decide, rfl, rfl,
    C5_cancel_graceful_group_nonblocking sampleCancelEnv runningSample (by decide) rfl rfl⟩

/-- C10: when cancel() finds a live run but delivering the termination
signal raises, it rolls the status back from "canceled" to "running" and
returns an error; the returned state is exactly the original one, so a
failed cancellation is observably a no-op. -/
theorem C10_cancel_failure_rolls_back (cenv : CancelEnv) (s : AppState)
    (hp : s.process ≠ none) (hr : s.running = true) (hs : s.status = "running")
    (hk : cenv.killOk = false) :
    cancel cenv s = (s, (false, "キャンセル失敗: " ++ cenv.errText), []) := by
  unfold cancel
  rw [if_neg (by simp [hp, hr]), hk]
  simp only [Bool.false_eq_true, if_false]
  rw [← hs]

/-- Witness for C10 at a concrete live run whose kill signal raises. -/
theorem C10_witness :
    runningSample.process ≠ none ∧ runningSample.running = true ∧
    runningSample.status = "running" ∧ sampleCancelEnvRaises.killOk = false ∧
    cancel sampleCancelEnvRaises runningSample =
      (runningSample, (false, "キャンセル失敗: " ++ sampleCancelEnvRaises.errText), []) :=
  ⟨by decide, rfl, rfl, rfl,
    C10_cancel_failure_rolls_back sampleCancelEnvRaises runningSample (by decide) rfl rfl rfl⟩

/-- C6: a recovery request whose mode resolves to time_range and whose
segment duration is resolvable from none of the three sources - the
explicit override field is empty, the recovery_meta sidecar has no
SEGMENT_TIME key, and the store holds no resolved segmented run - returns
a validation error, leaves the state (status included) completely
unchanged, and never reaches the external process launch. -/
theorem C6_time_range_without_segment_time_fails (env : RetryEnv) (s : AppState)
    (form : RetryForm)
    (hmode : resolvedRecoveryMode s form = "time_range")
    (hov : retryOverrideText form = "")
    (hmeta : metaGet (readRecoveryMeta env.metaContent) "SEGMENT_TIME" = none)
    (hstate : s.resolvedMode ≠ "segmented") :
    ∃ msg, retryFailedWithForm env s form = (s, (false, msg), false) := by
  simp only [retryFailedWithForm]
  by_cases h1 : s.running = true
  · exact ⟨"すでに実行中です。", by rw [if_pos h1]⟩
  rw [if_neg h1]
  by_cases h2 : s.inputFile = "" ∨ ¬env.isFile s.inputFile = true
  · exact ⟨"入力音声が見つかりません。先に通常実行を行ってください。", by rw [if_pos h2]⟩
  rw [if_neg h2]
  by_cases h3 : ¬env.retryScriptExists = true
  · exact ⟨"retry_failed_segments.sh が見つかりません。", by rw [if_pos h3]⟩
  rw [if_neg h3]
  by_cases h4 : ¬env.isFile (resolveOutputPath env.outputsDir
      (pyStrip (pyOr (formStr form.recoveryPartialOutput)
        (pyOr s.recoveryPartialOutput (pyOr (pyBasename s.outputFile) "transcription_result.txt"))))
      (pyOr (pyBasename s.outputFile) "transcription_result.txt")) = true
  · exact ⟨_, by rw [if_pos h4]⟩
  rw [if_neg h4]
  rw [hov, hmode]
  rw [if_pos (rfl : ("" : String) = "")]
  dsimp only
  simp only [ne_eq, not_true_eq_false, false_and, if_false, lt_irrefl, or_false,
    reduceCtorEq, ite_false]
  rw [if_neg (by decide : ¬ ("time_range" : String) = "failed")]
  have hseg : pyOrNat (Int.toNat 0)
      (pyOrNat (parseIntClamped (metaGet (readRecoveryMeta env.metaContent) "SEGMENT_TIME")
          0 0 3600).toNat
        (if s.resolvedMode = "segmented" then clampNat s.resolvedSegmentTime 0 3600 else 0)) =
        0 := by
    rw [hmeta, if_neg hstate]
    decide
  by_cases h5 : pyStrip (pyOr (formStr form.recoveryRanges) (pyOr s.recoveryRanges "")) = ""
  · exact ⟨"時刻範囲を入力してください。例: 00:10:00-00:12:30, 00:31:00", by rw [if_pos h5]⟩
  · exact ⟨"分割秒を特定できません。`分割秒` を入力して再実行してください。", by rw [if_neg h5, if_pos hseg]⟩

/-- Witness for C6: a concrete idle store that never resolved a segmented
run, a recovery environment without the sidecar, and a time-range form
with no override. -/
theorem C6_witness :
    resolvedRecoveryMode idleSampleWithInput sampleRetryForm = "time_range" ∧
    retryOverrideText sampleRetryForm = "" ∧
    metaGet (readRecoveryMeta sampleRetryEnv.metaContent) "SEGMENT_TIME" = none ∧
    idleSampleWithInput.resolvedMode ≠ "segmented" ∧
    (∃ msg, retryFailedWithForm sampleRetryEnv idleSampleWithInput sampleRetryForm =
        (idleSampleWithInput, (false, msg), false)) :=
  ⟨by decide, rfl, rfl, by decide,
    C6_time_range_without_segment_time_fails sampleRetryEnv idleSampleWithInput sampleRetryForm
      (by decide) rfl rfl (by decide)⟩

end WhisperGuiWeb
